import Mathlib

/-
Verification development for the DevCam repository's two patch scripts,
`add_test_target.py` and `add_test_target_complete.py`.

Documents (the text of `project.pbxproj`) are modelled as `List Char`.
The scripts' primitives are modelled faithfully:
  * Python `old in content`  / truthiness of `re.search(<literal>, content)`
    is substring occurrence (`occurs`);
  * Python `content.replace(old, new)` replaces every non-overlapping
    occurrence left-to-right (`replaceAll`);
  * the four group-capturing `re.search` calls (steps 4, 5, 9, 10 of the
    complete script) are realised by `groupedMatch1` / `groupedMatch2`,
    which compute the leftmost match of the patterns
    `(LIT\s*)(.*?)(\s*CLOSE)` and `(LITA.*?LITB\s*)(.*?)(\s*CLOSE)` under
    `re.DOTALL` backtracking semantics (see the comments at their
    definitions for the derivation);
  * `uuid.uuid4()` is modelled by its 128 random bits, passed in as a
    `Nat`, with the version nibble forced to 4 and the variant nibble
    forced to `10xx`, exactly as RFC 4122 / CPython do.  A whole run
    receives an entropy stream `r : Nat → Nat`, draw `i` being `r i`.
-/

set_option maxRecDepth 100000

abbrev Doc := List Char

/-- Scanning worker for `findSub`: `i` is the index of the current suffix
within the original list. -/
def findSubAux (pat : Doc) : Doc → Nat → Option Nat
  | [], i => if pat.isPrefixOf ([] : Doc) then some i else none
  | c :: t, i =>
    if pat.isPrefixOf (c :: t) then some i
    else findSubAux pat t (i + 1)

/-- Leftmost index at which `pat` occurs in the list, if any
(Python `content.find(pat)` / leftmost `re.search` of a literal). -/
def findSub (pat s : Doc) : Option Nat :=
  findSubAux pat s 0

/-- `pat` occurs somewhere in `s` (Python `pat in s`, and the truthiness of
`re.search` applied to a literal pattern): some suffix of `s` starts with
`pat`. -/
def occurs (pat : Doc) : Doc → Bool
  | [] => pat.isPrefixOf ([] : Doc)
  | c :: t => pat.isPrefixOf (c :: t) || occurs pat t

/-- Worker for `replaceAll`.  While `skip > 0` we are inside the tail of an
occurrence that has already been rewritten, so the character is consumed
without being emitted.  At `skip = 0`, if `old` starts here the replacement
`new` is emitted and the remaining `old.length - 1` characters of the
occurrence are scheduled to be skipped; otherwise the character is copied.
This is exactly Python's non-overlapping left-to-right `str.replace`
(for the nonempty `old` the scripts always use). -/
def raGo (old new : Doc) : Doc → Nat → Doc
  | [], _ => []
  | _ :: t, skip + 1 => raGo old new t skip
  | c :: t, 0 =>
    if old.isPrefixOf (c :: t) && !old.isEmpty then
      new ++ raGo old new t (old.length - 1)
    else
      c :: raGo old new t 0

/-- Python `s.replace(old, new)` for nonempty `old`. -/
def replaceAll (old new s : Doc) : Doc :=
  raGo old new s 0

/-- Python's `\s` character class on ASCII text: `[ \t\n\r\f\v]`. -/
def isPySpace (c : Char) : Bool :=
  c = ' ' || c = '\t' || c = '\n' || c = '\r' || c = '\x0b' || c = '\x0c'

/-- Length of the maximal leading run of `\s` characters. -/
def wsRun : Doc → Nat
  | [] => 0
  | c :: t => if isPySpace c then wsRun t + 1 else 0

/-- Smallest offset `q` into `s` such that, after skipping the maximal
whitespace run starting at `q`, the literal `closeLit` follows.

This is how a lazy `(.*?)` followed by a greedy `(\s*CLOSE)` group binds in
a Python regex: the lazy group grows one character at a time (offsets `q`
in increasing order), and at each stop the greedy `\s*` must swallow the
whole whitespace run — backtracking it cannot help, because the first
character of `CLOSE` (`)` or `}`) is not a whitespace character, so the
close literal can only sit exactly at the end of the run. -/
def findCloseAux (closeLit : Doc) : Doc → Nat → Option Nat
  | [], q =>
    if closeLit.isPrefixOf (([] : Doc).drop (wsRun [])) then some q else none
  | c :: t, q =>
    if closeLit.isPrefixOf ((c :: t).drop (wsRun (c :: t))) then some q
    else findCloseAux closeLit t (q + 1)

def findClose (closeLit s : Doc) : Option Nat :=
  findCloseAux closeLit s 0

/-- Leftmost match of `(LIT\s*)(.*?)(\s*CLOSE)` (with `useWs := true`) or of
`(LIT)(.*?)(\s*CLOSE)` (with `useWs := false`) under `re.DOTALL`, returning
the three capture groups.  The match anchors at the leftmost occurrence of
`LIT`: if no close exists after that occurrence then none exists after any
later occurrence either (any close position valid for a later occurrence is
past the leftmost occurrence's literal and greedy whitespace run, because
the literal starts with a non-whitespace character). -/
def groupedMatch1 (lit closeLit : Doc) (useWs : Bool) (s : Doc) :
    Option (Doc × Doc × Doc) :=
  match findSub lit s with
  | none => none
  | some i =>
    let rest := (s.drop i).drop lit.length
    let m := if useWs then wsRun rest else 0
    let mid := rest.drop m
    match findClose closeLit mid with
    | none => none
    | some q =>
      let w := wsRun (mid.drop q)
      some (lit ++ rest.take m, mid.take q, (mid.drop q).take (w + closeLit.length))

/-- Leftmost match of `(LITA.*?LITB\s*)(.*?)(\s*CLOSE)` under `re.DOTALL`,
returning the three capture groups (the first group spans from `LITA`
through `LITB` and the greedy whitespace run after it).  The inner lazy
`.*?` binds to the leftmost occurrence of `LITB` after `LITA`, by the same
leftmost-anchoring argument as in `groupedMatch1`. -/
def groupedMatch2 (litA litB closeLit : Doc) (s : Doc) :
    Option (Doc × Doc × Doc) :=
  match findSub litA s with
  | none => none
  | some i =>
    let r1 := (s.drop i).drop litA.length
    match findSub litB r1 with
    | none => none
    | some j =>
      let r2 := (r1.drop j).drop litB.length
      let m := wsRun r2
      let mid := r2.drop m
      match findClose closeLit mid with
      | none => none
      | some q =>
        let w := wsRun (mid.drop q)
        some (litA ++ r1.take j ++ litB ++ r2.take m, mid.take q,
              (mid.drop q).take (w + closeLit.length))

/-- `[A-F0-9]` — uppercase hexadecimal digit. -/
def isHexUp (c : Char) : Bool :=
  ('0' ≤ c && c ≤ '9') || ('A' ≤ c && c ≤ 'F')

/-- Hexadecimal digit characters as produced by CPython's `%x` / `uuid.hex`
(lowercase). -/
def hexDigitChar (n : Nat) : Char :=
  if n < 10 then Char.ofNat (48 + n) else Char.ofNat (97 + (n - 10))

/-- Nibble `i` (0 = most significant) of the 128-bit integer of
`uuid.uuid4()` built from the raw 128 random bits `r`: nibble 12 is the
version (4) and nibble 16 is the variant (`10xx`, i.e. 8..11); all others
are the corresponding raw nibbles of `r`. -/
def uuid4Nibble (r i : Nat) : Nat :=
  if i = 12 then 4
  else if i = 16 then 8 + (r / 16 ^ (31 - i)) % 4
  else (r / 16 ^ (31 - i)) % 16

/-- `uuid.uuid4().hex` — 32 lowercase hex characters, most significant
nibble first. -/
def uuid4hex (r : Nat) : Doc :=
  (List.range 32).map fun i => hexDigitChar (uuid4Nibble r i)

/-- The canonical string form `str(uuid.uuid4())`:
8-4-4-4-12 hex groups separated by hyphens. -/
def uuid4str (r : Nat) : Doc :=
  (uuid4hex r).take 8 ++ ['-'] ++ ((uuid4hex r).drop 8).take 4 ++ ['-'] ++
    ((uuid4hex r).drop 12).take 4 ++ ['-'] ++ ((uuid4hex r).drop 16).take 4 ++
    ['-'] ++ (uuid4hex r).drop 20

/-- The all-zeros entropy stream (a perfectly legitimate sequence of values
for the 128 random bits backing successive `uuid.uuid4()` calls). -/
def zeroR : Nat → Nat := fun _ => 0

/-- Outcome of running one of the scripts: the bytes written to
`project.pbxproj` (if any write happened), the process exit code, the lines
printed to standard output, and whether the sibling `.backup` copy was
made. -/
structure RunResult where
  written : Option Doc
  exitCode : Nat
  msgs : List String
  backup : Bool
deriving DecidableEq

namespace AddTestTargetComplete

/-- `generate_uuid` of `add_test_target_complete.py`:
`uuid.uuid4().hex[:24].upper()`. -/
def generate_uuid (r : Nat) : Doc :=
  ((uuid4hex r).take 24).map Char.toUpper

/- The text anchors of the complete script (named here for reuse). -/

def devcamTests : Doc := "DevCamTests".data
def bFR : Doc := "/* Begin PBXFileReference section */".data
def eFR : Doc := "/* End PBXFileReference section */".data
def fsEnd : Doc := "/* End PBXFileSystemSynchronizedRootGroup section */".data
def fwBegin : Doc := "/* Begin PBXFrameworksBuildPhase section */".data
def fwEnd : Doc := "/* End PBXFrameworksBuildPhase section */".data
def eNT : Doc := "/* End PBXNativeTarget section */".data
def proxyBegin : Doc := "/* Begin PBXContainerItemProxy section */".data
def depBegin : Doc := "/* Begin PBXTargetDependency section */".data
def resEnd : Doc := "/* End PBXResourcesBuildPhase section */".data
def srcEnd : Doc := "/* End PBXSourcesBuildPhase section */".data
def eXC : Doc := "/* End XCBuildConfiguration section */".data
def xclEnd : Doc := "/* End XCConfigurationList section */".data
def bNT : Doc := "/* Begin PBXNativeTarget section */".data
def bXC : Doc := "/* Begin XCBuildConfiguration section */".data
def prodKeyLit : Doc := "D76E4B1F2F2331380090999D /* Products */ = \x7b".data
def mainKeyLit : Doc := "D76E4B152F2331380090999D = \x7b".data
def childrenLit : Doc := "children = (".data
def targetsLit : Doc := "targets = (".data
def attrsLit : Doc := "TargetAttributes = \x7b".data
def closeParen : Doc := ");".data
def closeBrace : Doc := "\x7d;".data

/-- Truthiness of
`re.search(r'/\* Begin PBXFileReference section \*/\n(.*?)\n/\* End PBXFileReference section \*/', content, re.DOTALL)`:
some position carries the begin marker followed by a newline, with a
newline-plus-end-marker somewhere after it.  (For a pure existence test the
lazy group is irrelevant, and if any begin-marker position works then so
does the leftmost one, so plain existence is equivalent to `re.search`
truthiness.) -/
def hasFRHere (s : Doc) : Bool :=
  (bFR ++ ['\n']).isPrefixOf s &&
    occurs ('\n' :: eFR) (s.drop (bFR.length + 1))

def hasFRSection : Doc → Bool
  | [] => hasFRHere []
  | c :: t => hasFRHere (c :: t) || hasFRSection t

/- The text stanzas the script splices in (f-string bodies of the source,
with the generated uuids as parameters). -/

def newFileRef (u1 : Doc) : Doc :=
  "\t\t".data ++ u1 ++ " /* DevCamTests.xctest */ = \x7bisa = PBXFileReference; explicitFileType = wrapper.cfbundle; includeInIndex = 0; path = DevCamTests.xctest; sourceTree = BUILT_PRODUCTS_DIR; \x7d;\n".data

def newGroup (u10 : Doc) : Doc :=
  "\t\t".data ++ u10 ++ " /* DevCamTests */ = \x7b\n\t\t\tisa = PBXFileSystemSynchronizedRootGroup;\n\t\t\tpath = DevCamTests;\n\t\t\tsourceTree = \"<group>\";\n\t\t\x7d;\n".data

def newFrameworks (u3 : Doc) : Doc :=
  "\t\t".data ++ u3 ++ " /* Frameworks */ = \x7b\n\t\t\tisa = PBXFrameworksBuildPhase;\n\t\t\tbuildActionMask = 2147483647;\n\t\t\tfiles = (\n\t\t\t);\n\t\t\trunOnlyForDeploymentPostprocessing = 0;\n\t\t\x7d;\n".data

def newChildItem (u1 : Doc) : Doc :=
  "\t\t\t\t".data ++ u1 ++ " /* DevCamTests.xctest */,\n".data

def newGroupItem (u10 : Doc) : Doc :=
  "\t\t\t\t".data ++ u10 ++ " /* DevCamTests */,\n".data

def newTarget (u0 u5 u2 u3 u4 u8 u10 u1 : Doc) : Doc :=
  "\t\t".data ++ u0 ++ " /* DevCamTests */ = \x7b\n\t\t\tisa = PBXNativeTarget;\n\t\t\tbuildConfigurationList = ".data ++ u5 ++ " /* Build configuration list for PBXNativeTarget \"DevCamTests\" */;\n\t\t\tbuildPhases = (\n\t\t\t\t".data ++ u2 ++ " /* Sources */,\n\t\t\t\t".data ++ u3 ++ " /* Frameworks */,\n\t\t\t\t".data ++ u4 ++ " /* Resources */,\n\t\t\t);\n\t\t\tbuildRules = (\n\t\t\t);\n\t\t\tdependencies = (\n\t\t\t\t".data ++ u8 ++ " /* PBXTargetDependency */,\n\t\t\t);\n\t\t\tfileSystemSynchronizedGroups = (\n\t\t\t\t".data ++ u10 ++ " /* DevCamTests */,\n\t\t\t);\n\t\t\tname = DevCamTests;\n\t\t\tpackageProductDependencies = (\n\t\t\t);\n\t\t\tproductName = DevCamTests;\n\t\t\tproductReference = ".data ++ u1 ++ " /* DevCamTests.xctest */;\n\t\t\tproductType = \"com.apple.product-type.bundle.unit-test\";\n\t\t\x7d;\n".data

def containerProxyBlock (u9 : Doc) : Doc :=
  "/* Begin PBXContainerItemProxy section */\n\t\t".data ++ u9 ++ " /* PBXContainerItemProxy */ = \x7b\n\t\t\tisa = PBXContainerItemProxy;\n\t\t\tcontainerPortal = D76E4B162F2331380090999D /* Project object */;\n\t\t\tproxyType = 1;\n\t\t\tremoteGlobalIDString = D76E4B1D2F2331380090999D;\n\t\t\tremoteInfo = DevCam;\n\t\t\x7d;\n/* End PBXContainerItemProxy section */\n\n".data

def targetDepBlock (u8 u9 : Doc) : Doc :=
  "/* Begin PBXTargetDependency section */\n\t\t".data ++ u8 ++ " /* PBXTargetDependency */ = \x7b\n\t\t\tisa = PBXTargetDependency;\n\t\t\ttarget = D76E4B1D2F2331380090999D /* DevCam */;\n\t\t\ttargetProxy = ".data ++ u9 ++ " /* PBXContainerItemProxy */;\n\t\t\x7d;\n/* End PBXTargetDependency section */\n\n".data

def newTargetsItem (u0 : Doc) : Doc :=
  "\t\t\t\t".data ++ u0 ++ " /* DevCamTests */,\n".data

def newAttrsItem (u0 : Doc) : Doc :=
  "\n\t\t\t\t\t".data ++ u0 ++ " = \x7b\n\t\t\t\t\t\tCreatedOnToolsVersion = 26.2;\n\t\t\t\t\t\tTestTargetID = D76E4B1D2F2331380090999D;\n\t\t\t\t\t\x7d;".data

def newResources (u4 : Doc) : Doc :=
  "\t\t".data ++ u4 ++ " /* Resources */ = \x7b\n\t\t\tisa = PBXResourcesBuildPhase;\n\t\t\tbuildActionMask = 2147483647;\n\t\t\tfiles = (\n\t\t\t);\n\t\t\trunOnlyForDeploymentPostprocessing = 0;\n\t\t\x7d;\n".data

def newSources (u2 : Doc) : Doc :=
  "\t\t".data ++ u2 ++ " /* Sources */ = \x7b\n\t\t\tisa = PBXSourcesBuildPhase;\n\t\t\tbuildActionMask = 2147483647;\n\t\t\tfiles = (\n\t\t\t);\n\t\t\trunOnlyForDeploymentPostprocessing = 0;\n\t\t\x7d;\n".data

def buildSettingsBody : Doc :=
  "\t\t\tbuildSettings = \x7b\n\t\t\t\tBUNDLE_LOADER = \"$(TEST_HOST)\";\n\t\t\t\tCODE_SIGN_STYLE = Automatic;\n\t\t\t\tCURRENT_PROJECT_VERSION = 1;\n\t\t\t\tDEVELOPMENT_TEAM = 93QQU293YD;\n\t\t\t\tGENERATE_INFOPLIST_FILE = YES;\n\t\t\t\tMARKETING_VERSION = 1.0;\n\t\t\t\tPRODUCT_BUNDLE_IDENTIFIER = \"Jonathan-Hines-Dumitru.DevCamTests\";\n\t\t\t\tPRODUCT_NAME = \"$(TARGET_NAME)\";\n\t\t\t\tSWIFT_EMIT_LOC_STRINGS = NO;\n\t\t\t\tSWIFT_VERSION = 5.0;\n\t\t\t\tTEST_HOST = \"$(BUILT_PRODUCTS_DIR)/DevCam.app/$(BUNDLE_EXECUTABLE_FOLDER_PATH)/DevCam\";\n\t\t\t\x7d;\n".data

def newConfigs (u6 u7 : Doc) : Doc :=
  "\t\t".data ++ u6 ++ " /* Debug */ = \x7b\n\t\t\tisa = XCBuildConfiguration;\n".data ++
    buildSettingsBody ++ "\t\t\tname = Debug;\n\t\t\x7d;\n\t\t".data ++ u7 ++
    " /* Release */ = \x7b\n\t\t\tisa = XCBuildConfiguration;\n".data ++
    buildSettingsBody ++ "\t\t\tname = Release;\n\t\t\x7d;\n".data

def newConfigList (u5 u6 u7 : Doc) : Doc :=
  "\t\t".data ++ u5 ++ " /* Build configuration list for PBXNativeTarget \"DevCamTests\" */ = \x7b\n\t\t\tisa = XCConfigurationList;\n\t\t\tbuildConfigurations = (\n\t\t\t\t".data ++ u6 ++ " /* Debug */,\n\t\t\t\t".data ++ u7 ++ " /* Release */,\n\t\t\t);\n\t\t\tdefaultConfigurationIsVisible = 0;\n\t\t\tdefaultConfigurationName = Release;\n\t\t\x7d;\n".data

/- The fourteen patch operations, in script order (numbers match the
source comments). -/

/-- Step 1: insert the test product into the PBXFileReference section. -/
def step1 (u1 : Doc) (s : Doc) : Doc :=
  if hasFRSection s then replaceAll eFR (newFileRef u1 ++ eFR) s else s

/-- Step 2: insert the test group into PBXFileSystemSynchronizedRootGroup. -/
def step2 (u10 : Doc) (s : Doc) : Doc :=
  if occurs fsEnd s then replaceAll fsEnd (newGroup u10 ++ fsEnd) s else s

/-- Step 3: insert the frameworks build phase. -/
def step3 (u3 : Doc) (s : Doc) : Doc :=
  if occurs fwEnd s then replaceAll fwEnd (newFrameworks u3 ++ fwEnd) s else s

/-- Step 4: append the test product to the Products group children. -/
def step4 (u1 : Doc) (s : Doc) : Doc :=
  match groupedMatch2 prodKeyLit childrenLit closeParen s with
  | none => s
  | some (g1, g2, g3) =>
    replaceAll (g1 ++ g2 ++ g3) (g1 ++ (g2 ++ newChildItem u1) ++ g3) s

/-- Step 5: append the test group to the main group children. -/
def step5 (u10 : Doc) (s : Doc) : Doc :=
  match groupedMatch2 mainKeyLit childrenLit closeParen s with
  | none => s
  | some (g1, g2, g3) =>
    replaceAll (g1 ++ g2 ++ g3) (g1 ++ (g2 ++ newGroupItem u10) ++ g3) s

/-- Step 6: insert the test target into the PBXNativeTarget section. -/
def step6 (u0 u5 u2 u3 u4 u8 u10 u1 : Doc) (s : Doc) : Doc :=
  if occurs eNT s then
    replaceAll eNT (newTarget u0 u5 u2 u3 u4 u8 u10 u1 ++ eNT) s
  else s

/-- Step 7: create the PBXContainerItemProxy section (before the
PBXFileReference begin marker) if it does not already exist. -/
def step7 (u9 : Doc) (s : Doc) : Doc :=
  if !occurs proxyBegin s then
    replaceAll bFR (containerProxyBlock u9 ++ bFR) s
  else s

/-- Step 8: create the PBXTargetDependency section (before the
PBXFrameworksBuildPhase begin marker) if it does not already exist. -/
def step8 (u8 u9 : Doc) (s : Doc) : Doc :=
  if !occurs depBegin s then
    replaceAll fwBegin (targetDepBlock u8 u9 ++ fwBegin) s
  else s

/-- Step 9: append the test target to the project `targets` list. -/
def step9 (u0 : Doc) (s : Doc) : Doc :=
  match groupedMatch1 targetsLit closeParen true s with
  | none => s
  | some (g1, g2, g3) =>
    replaceAll (g1 ++ g2 ++ g3) (g1 ++ (g2 ++ newTargetsItem u0) ++ g3) s

/-- Step 10: add the test target's TargetAttributes entry. -/
def step10 (u0 : Doc) (s : Doc) : Doc :=
  match groupedMatch1 attrsLit closeBrace false s with
  | none => s
  | some (g1, g2, g3) =>
    replaceAll (g1 ++ g2 ++ g3) (g1 ++ (g2 ++ newAttrsItem u0) ++ g3) s

/-- Step 11: insert the resources build phase. -/
def step11 (u4 : Doc) (s : Doc) : Doc :=
  if occurs resEnd s then replaceAll resEnd (newResources u4 ++ resEnd) s else s

/-- Step 12: insert the sources build phase. -/
def step12 (u2 : Doc) (s : Doc) : Doc :=
  if occurs srcEnd s then replaceAll srcEnd (newSources u2 ++ srcEnd) s else s

/-- Step 13: insert the Debug and Release build configurations. -/
def step13 (u6 u7 : Doc) (s : Doc) : Doc :=
  if occurs eXC s then replaceAll eXC (newConfigs u6 u7 ++ eXC) s else s

/-- Step 14: insert the build-configuration list. -/
def step14 (u5 u6 u7 : Doc) (s : Doc) : Doc :=
  if occurs xclEnd s then
    replaceAll xclEnd (newConfigList u5 u6 u7 ++ xclEnd) s
  else s

/-- The complete in-memory patch: the eleven uuid draws followed by the
fourteen operations, exactly in script order. -/
def applyPatch (r : Nat → Nat) (content : Doc) : Doc :=
  let test_target_uuid := generate_uuid (r 0)
  let test_product_uuid := generate_uuid (r 1)
  let test_sources_uuid := generate_uuid (r 2)
  let test_frameworks_uuid := generate_uuid (r 3)
  let test_resources_uuid := generate_uuid (r 4)
  let test_buildconfig_list_uuid := generate_uuid (r 5)
  let test_debug_config_uuid := generate_uuid (r 6)
  let test_release_config_uuid := generate_uuid (r 7)
  let test_dependency_uuid := generate_uuid (r 8)
  let test_target_dependency_uuid := generate_uuid (r 9)
  let test_group_uuid := generate_uuid (r 10)
  let c1 := step1 test_product_uuid content
  let c2 := step2 test_group_uuid c1
  let c3 := step3 test_frameworks_uuid c2
  let c4 := step4 test_product_uuid c3
  let c5 := step5 test_group_uuid c4
  let c6 := step6 test_target_uuid test_buildconfig_list_uuid
    test_sources_uuid test_frameworks_uuid test_resources_uuid
    test_dependency_uuid test_group_uuid test_product_uuid c5
  let c7 := step7 test_target_dependency_uuid c6
  let c8 := step8 test_dependency_uuid test_target_dependency_uuid c7
  let c9 := step9 test_target_uuid c8
  let c10 := step10 test_target_uuid c9
  let c11 := step11 test_resources_uuid c10
  let c12 := step12 test_sources_uuid c11
  let c13 := step13 test_debug_config_uuid test_release_config_uuid c12
  step14 test_buildconfig_list_uuid test_debug_config_uuid
    test_release_config_uuid c13

/-- One run of `add_test_target_complete.py` on the given file content with
the given entropy stream: the idempotence guard, then the fourteen
operations and the unconditional write-back. -/
def run (r : Nat → Nat) (content : Doc) : RunResult :=
  if occurs devcamTests content then
    { written := none, exitCode := 0,
      msgs := ["Test target already exists!"], backup := false }
  else
    { written := some (applyPatch r content), exitCode := 0,
      msgs := ["Successfully added DevCamTests target to Xcode project!"],
      backup := false }

end AddTestTargetComplete

namespace AddTestTarget

/-- `generate_uuid` of `add_test_target.py`:
`str(uuid.uuid4()).upper().replace('-', '')[:24]`. -/
def generate_uuid (r : Nat) : Doc :=
  (((uuid4str r).map Char.toUpper).filter (fun c => c ≠ '-')).take 24

/-- Leftmost match of `re.search(r'([A-F0-9]{24}) /\* DevCam \*/', content)`,
returning the captured 24-character key. -/
def targetHere (s : Doc) : Bool :=
  ((s.take 24).all isHexUp) && (s.take 24).length == 24 &&
    (" /* DevCam */".data).isPrefixOf (s.drop 24)

def findTargetMatch : Doc → Option Doc
  | [] => if targetHere [] then some (([] : Doc).take 24) else none
  | c :: t =>
    if targetHere (c :: t) then some ((c :: t).take 24) else findTargetMatch t

/-- One run of `add_test_target.py`: the idempotence guard, the backup
copy, the main-target search, the insertion-point search, and the
manual-instructions fallback.  The script never writes the project file:
every control path ends before the (nonexistent) write.  (The script does
draw seven uuids from the entropy stream, but no output depends on them.) -/
def run (_r : Nat → Nat) (content : Doc) : RunResult :=
  if occurs AddTestTargetComplete.devcamTests content then
    { written := none, exitCode := 0,
      msgs := ["Test target already exists"], backup := false }
  else
    match findTargetMatch content with
    | none =>
      { written := none, exitCode := 1,
        msgs := ["Adding test target to Xcode project...",
                 "Could not find main target"], backup := true }
    | some u =>
      if occurs (u ++ " /* DevCam */,".data) content then
        { written := none, exitCode := 0,
          msgs := ["Adding test target to Xcode project...",
                   "Manual configuration required. Please use Xcode GUI to add test target."],
          backup := true }
      else
        { written := none, exitCode := 1,
          msgs := ["Adding test target to Xcode project...",
                   "Could not find insertion point"], backup := true }

end AddTestTarget

/-- A single newline, as a one-character document piece. -/
def nl1 : Doc := ['\n']

/-- The key produced by either script's `generate_uuid` when the 128
random bits are all zero. -/
def zkey : Doc := AddTestTargetComplete.generate_uuid 0

/-- Length comparison by simultaneous recursion (`a` is at most as long
as `b`). -/
def lenLe : Doc → Doc → Bool
  | [], _ => true
  | _ :: _, [] => false
  | _ :: a, _ :: b => lenLe a b

/-- Separation check between a pattern `x` and an inserted block `E`:
`x` is no longer than `E`, does not occur inside `E`, no nonempty proper
suffix of `x` is a prefix of `E`, and no nonempty proper prefix of `x` is a
suffix of `E`.  When it holds, inserting `E` between two document pieces
cannot create a new occurrence of `x` (`not_isInfix_mid`). -/
def sepOK (x E : Doc) : Bool :=
  lenLe x E && !(occurs x E) &&
    (List.range (x.length + 1)).all fun k =>
      k == 0 || k == x.length ||
        (!(x.drop k).isPrefixOf E && !(x.take k).isSuffixOf E)

namespace AddTestTargetComplete

/-- All fourteen operations of the complete script fail to find their
anchors in `s`: the section-pattern of step 1 does not match and none of
the literal anchors (including the insertion anchors of steps 7 and 8 and
the leading literals of the regexes of steps 4, 5, 9 and 10) occur. -/
def noAnchors (s : Doc) : Bool :=
  !hasFRSection s && !occurs fsEnd s && !occurs fwEnd s &&
    !occurs prodKeyLit s && !occurs mainKeyLit s && !occurs eNT s &&
    !occurs bFR s && !occurs fwBegin s && !occurs targetsLit s &&
    !occurs attrsLit s && !occurs resEnd s && !occurs srcEnd s &&
    !occurs eXC s && !occurs xclEnd s

end AddTestTargetComplete

namespace AddTestTargetComplete

/-- The region of a document strictly before its (unique) PBXFileReference
end marker: interstitial text `p0`, the begin marker, and the section body
(`g` surrounded by the newlines the step-1 guard requires). -/
def preFR (p0 g : Doc) : Doc :=
  p0 ++ (bFR ++ (nl1 ++ (g ++ nl1)))

/-- The region after the PBXFileReference end marker: interstitial `p1`,
then the PBXNativeTarget section with body `n`, interstitial `p2`, the
XCBuildConfiguration section with body `x`, and trailing `p3`. -/
def postFR (p1 n p2 x p3 : Doc) : Doc :=
  p1 ++ (bNT ++ (n ++ (eNT ++ (p2 ++ (bXC ++ (x ++ (eXC ++ p3)))))))

/-- The region after the PBXNativeTarget end marker. -/
def postNT (p2 x p3 : Doc) : Doc :=
  p2 ++ (bXC ++ (x ++ (eXC ++ p3)))

/-- A document with nonempty PBXFileReference (body `g`), PBXNativeTarget
(body `n`) and XCBuildConfiguration (body `x`) sections, each with a unique
begin/end marker pair, and arbitrary interstitial regions `p0 p1 p2 p3`. -/
def docShape (p0 g p1 n p2 x p3 : Doc) : Doc :=
  p0 ++ (bFR ++ (nl1 ++ (g ++ (nl1 ++ (eFR ++ postFR p1 n p2 x p3)))))

/-- The document produced by the zero-entropy run on `docShape`: the three
new entries (file reference, native target, Debug+Release configurations)
are inserted immediately before their sections' end markers; everything
else is untouched. -/
def outShape (p0 g p1 n p2 x p3 : Doc) : Doc :=
  p0 ++ (bFR ++ (nl1 ++ (g ++ (nl1 ++ (newFileRef zkey ++ (eFR ++ (p1 ++
    (bNT ++ (n ++ (newTarget zkey zkey zkey zkey zkey zkey zkey zkey ++
    (eNT ++ (p2 ++ (bXC ++ (x ++ (newConfigs zkey zkey ++
    (eXC ++ p3))))))))))))))))

end AddTestTargetComplete

/- Concrete documents used by the per-claim witnesses and counterexamples. -/

/-- A document that already contains the target name. -/
def docAlready : Doc := "stuff DevCamTests stuff".data

/-- A document with a PBXFileReference section but no PBXNativeTarget
section (and no other anchors). -/
def docFROnly : Doc :=
  "/* Begin PBXFileReference section */\n\tF00 /* a.swift */;\n/* End PBXFileReference section */\n".data

/-- A document containing no anchor of either script at all. -/
def docNoMarks : Doc := "nothing here".data

/-- Another anchor-free document. -/
def docHello : Doc := "hello".data

/-- Another anchor-free document. -/
def docTiny : Doc := "plain text".data

/-- A document that already contains, as an existing key, the very key the
zero-entropy uuid draws generate. -/
def docWithKey : Doc := "K 000000000000400080000000 /* App */".data

/-- First half of a document with two `targets` lists. -/
def docTargetsA : Doc := "targets = (\n\t\tA1,\n\t); ".data

/-- Second half of a document with two `targets` lists. -/
def docTargetsB : Doc := "targets = (\n\t\tB2,\n\t);".data

/-- A pre-existing project-object entry holding the `targets` list. -/
def entryC3 : Doc :=
  "ZZ /* proj */ = \x7b\n\t\t\ttargets = (\n\t\t\t\tT1 /* App */,\n\t\t\t);\n\t\t\x7d;".data

/-- A well-formed document with nonempty PBXFileReference, PBXNativeTarget
and XCBuildConfiguration sections, no occurrence of `DevCamTests`, and a
project entry (`entryC3`) carrying the `targets` list. -/
def docC3 : Doc :=
  "/* Begin PBXFileReference section */\n\t\tF1 /* a.swift */;\n/* End PBXFileReference section */\n/* Begin PBXNativeTarget section */\n\t\tT1 /* App */;\n/* End PBXNativeTarget section */\n/* Begin XCBuildConfiguration section */\n\t\tC1 /* Debug */;\n/* End XCBuildConfiguration section */\n/* Begin PBXProject section */\n\t\t".data
    ++ entryC3 ++ "\n/* End PBXProject section */\n".data

/- Concrete section contents and interstitial pieces for the witness of the
amended C3 theorem. -/

def p0w : Doc :=
  "/* Begin PBXContainerItemProxy section */ stub /* End PBXContainerItemProxy section */\n".data
def gw : Doc := "\t\tF1 /* a.swift */;".data
def p1w : Doc := "\n".data
def nw : Doc := "\n\t\tT1 /* App */;\n".data
def p2w : Doc :=
  "\n/* Begin PBXTargetDependency section */ stub /* End PBXTargetDependency section */\n".data
def xw : Doc := "\n\t\tC1 /* Debug */;\n".data
def p3w : Doc := "\n".data

/- ===== Core lemmas about the text primitives ===== -/

theorem occurs_iff (pat : Doc) : ∀ s : Doc, occurs pat s = true ↔ pat <:+: s
  | [] => by
    simp only [occurs, List.infix_nil, List.isPrefixOf_iff_prefix,
      List.prefix_nil]
  | c :: t => by
    simp only [occurs, Bool.or_eq_true, List.isPrefixOf_iff_prefix,
      occurs_iff pat t, List.infix_cons_iff]

theorem occurs_false_iff (pat s : Doc) : occurs pat s = false ↔ ¬ pat <:+: s := by
  rw [← occurs_iff]
  cases h : occurs pat s <;> simp

theorem findSubAux_eq_none (pat : Doc) :
    ∀ (s : Doc) (i : Nat), occurs pat s = false → findSubAux pat s i = none
  | [], i, h => by
    unfold occurs at h
    simp [findSubAux, h]
  | c :: t, i, h => by
    unfold occurs at h
    rw [Bool.or_eq_false_iff] at h
    unfold findSubAux
    rw [if_neg (by simp [h.1])]
    exact findSubAux_eq_none pat t (i + 1) h.2

theorem findSub_eq_none (pat s : Doc) (h : occurs pat s = false) :
    findSub pat s = none :=
  findSubAux_eq_none pat s 0 h

theorem occurs_of_isInfix {pat m s : Doc} (h : occurs pat m = true)
    (hm : m <:+: s) : occurs pat s = true :=
  (occurs_iff pat s).mpr (((occurs_iff pat m).mp h).trans hm)

theorem occurs_intro (x a b : Doc) : occurs x (a ++ (x ++ b)) = true :=
  (occurs_iff _ _).mpr ⟨a, b, by simp⟩

theorem raGo_nil (old new : Doc) (k : Nat) : raGo old new [] k = [] := by
  cases k <;> rfl

theorem raGo_succ (old new : Doc) (c : Char) (t : Doc) (k : Nat) :
    raGo old new (c :: t) (k + 1) = raGo old new t k := rfl

theorem raGo_zero (old new : Doc) (c : Char) (t : Doc) :
    raGo old new (c :: t) 0 =
      if old.isPrefixOf (c :: t) && !old.isEmpty then
        new ++ raGo old new t (old.length - 1)
      else c :: raGo old new t 0 := rfl

theorem raGo_skip (old new : Doc) :
    ∀ (x r : Doc), raGo old new (x ++ r) x.length = raGo old new r 0
  | [], r => rfl
  | c :: x, r => by
    rw [List.cons_append, List.length_cons, raGo_succ]
    exact raGo_skip old new x r

theorem replaceAll_not_occur (old new : Doc) :
    ∀ (s : Doc), ¬ old <:+: s → replaceAll old new s = s
  | [], _ => rfl
  | c :: t, h => by
    have hp : old.isPrefixOf (c :: t) ≠ true := fun hp =>
      h (List.isPrefixOf_iff_prefix.mp hp).isInfix
    unfold replaceAll
    rw [raGo_zero, if_neg (by simp [hp])]
    have ht := replaceAll_not_occur old new t (fun hi => h (List.infix_cons hi))
    unfold replaceAll at ht
    rw [ht]

theorem replaceAll_append (old new : Doc) (hne : old ≠ []) :
    ∀ (a b : Doc), ¬ old <:+: (a ++ old.dropLast) →
      replaceAll old new (a ++ (old ++ b)) = a ++ new ++ replaceAll old new b
  | [], b, _ => by
    obtain ⟨c, ot, rfl⟩ : ∃ c ot, old = c :: ot := by
      cases old with
      | nil => exact absurd rfl hne
      | cons c ot => exact ⟨c, ot, rfl⟩
    unfold replaceAll
    rw [List.nil_append, List.cons_append, raGo_zero, if_pos]
    · rw [show (c :: ot).length - 1 = ot.length by simp, raGo_skip]
      simp
    · rw [Bool.and_eq_true]
      refine ⟨List.isPrefixOf_iff_prefix.mpr ⟨b, by simp⟩, by simp⟩
  | a0 :: a, b, h => by
    have hnp : ¬ old <+: ((a0 :: a) ++ (old ++ b)) := by
      intro hp
      apply h
      have hlen : old.length ≤ ((a0 :: a) ++ old.dropLast).length := by
        have : 1 ≤ old.length := List.length_pos.mpr hne
        simp only [List.length_append, List.length_cons, List.length_dropLast]
        omega
      have hre : (a0 :: a) ++ (old ++ b) =
          ((a0 :: a) ++ old.dropLast) ++ ([old.getLast hne] ++ b) := by
        conv_lhs => rw [← List.dropLast_concat_getLast hne]
        simp
      rw [List.prefix_iff_eq_take, hre, List.take_append_of_le_length hlen] at hp
      exact (List.prefix_iff_eq_take.mpr hp).isInfix
    have h' : ¬ old <:+: (a ++ old.dropLast) := by
      intro hi
      apply h
      rw [List.cons_append]
      exact List.infix_cons hi
    unfold replaceAll
    rw [List.cons_append, raGo_zero,
      if_neg (by
        simp only [Bool.and_eq_true, Bool.not_eq_true', not_and]
        intro hp
        exact absurd (List.isPrefixOf_iff_prefix.mp hp)
          (by rw [← List.cons_append]; exact hnp))]
    have ih := replaceAll_append old new hne a b h'
    unfold replaceAll at ih
    rw [ih]
    simp

theorem replaceAll_sublist_fuel (old new : Doc) (h : List.Sublist old new) :
    ∀ (n : Nat) (s : Doc), s.length ≤ n → List.Sublist s (replaceAll old new s) := by
  intro n
  induction n with
  | zero =>
    intro s hs
    have hnil : s = [] := List.eq_nil_of_length_eq_zero (Nat.le_zero.mp hs)
    subst hnil
    simp [replaceAll, raGo_nil]
  | succ n ih =>
    intro s hs
    match s with
    | [] => simp [replaceAll, raGo_nil]
    | c :: t =>
      unfold replaceAll
      rw [raGo_zero]
      split
      · next hc =>
        rw [Bool.and_eq_true] at hc
        obtain ⟨hp, hne⟩ := hc
        obtain ⟨o0, ot, rfl⟩ : ∃ o0 ot, old = o0 :: ot := by
          cases old with
          | nil => simp at hne
          | cons o0 ot => exact ⟨o0, ot, rfl⟩
        obtain ⟨rest, hrest⟩ := List.isPrefixOf_iff_prefix.mp hp
        rw [List.cons_append] at hrest
        injection hrest with h1 h2
        rw [show (o0 :: ot).length - 1 = ot.length by simp, ← h2, raGo_skip]
        have hrl : rest.length ≤ n := by
          have := congrArg List.length h2
          simp only [List.length_append] at this
          simp only [List.length_cons] at hs
          omega
        rw [show c :: (ot ++ rest) = (o0 :: ot) ++ rest by rw [h1]; simp]
        exact List.Sublist.append h (ih rest hrl)
      · next =>
        refine List.Sublist.cons₂ c ?_
        exact ih t (by simp only [List.length_cons] at hs; omega)

theorem replaceAll_sublist (old new : Doc) (h : List.Sublist old new) (s : Doc) :
    List.Sublist s (replaceAll old new s) :=
  replaceAll_sublist_fuel old new h s.length s Nat.le.refl

theorem prefix_of_append_short {p E B : Doc} (h : p <+: E ++ B)
    (hl : p.length ≤ E.length) : p <+: E := by
  rw [List.prefix_iff_eq_take] at h
  rw [List.take_append_of_le_length hl] at h
  exact List.prefix_iff_eq_take.mpr h

theorem lenLe_iff : ∀ a b : Doc, lenLe a b = true ↔ a.length ≤ b.length
  | [], b => by simp [lenLe]
  | _ :: _, [] => by simp [lenLe]
  | _ :: a, _ :: b => by
    simp only [lenLe, List.length_cons, lenLe_iff a b]
    omega

theorem sepOK_length {x E : Doc} (h : sepOK x E = true) : x.length ≤ E.length := by
  unfold sepOK at h
  simp only [Bool.and_eq_true] at h
  exact (lenLe_iff x E).mp h.1.1

theorem sepOK_not_occurs {x E : Doc} (h : sepOK x E = true) :
    occurs x E = false := by
  unfold sepOK at h
  simp only [Bool.and_eq_true, Bool.not_eq_true'] at h
  exact h.1.2

theorem sepOK_entry {x E : Doc} (h : sepOK x E = true) {k : Nat}
    (h0 : 0 < k) (hk : k < x.length) :
    ¬ (x.drop k) <+: E ∧ ¬ (x.take k) <:+ E := by
  unfold sepOK at h
  simp only [Bool.and_eq_true, List.all_eq_true] at h
  have hm := h.2 k (List.mem_range.mpr (by omega))
  simp only [Bool.or_eq_true, Bool.and_eq_true] at hm
  rcases hm with (h' | h') | ⟨hp, hsuf⟩
  · rw [beq_iff_eq] at h'
    omega
  · rw [beq_iff_eq] at h'
    omega
  · constructor
    · intro hc
      have hc' := List.isPrefixOf_iff_prefix.mpr hc
      rw [hc'] at hp
      simp at hp
    · intro hc
      have hc' := List.isSuffixOf_iff_suffix.mpr hc
      rw [hc'] at hsuf
      simp at hsuf

theorem isInfix_append_cases {x A B : Doc} (h : x <:+: A ++ B) :
    x <:+: A ∨ x <:+: B ∨
      ∃ k, 0 < k ∧ k < x.length ∧ x.take k <:+ A ∧ x.drop k <+: B := by
  obtain ⟨a, b, hab⟩ := h
  rw [List.append_assoc] at hab
  rcases List.append_eq_append_iff.mp hab with ⟨w, hw1, hw2⟩ | ⟨w, hw1, hw2⟩
  · rcases List.append_eq_append_iff.mp hw2 with ⟨v, hv1, hv2⟩ | ⟨v, hv1, hv2⟩
    · left
      exact ⟨a, v, by rw [hw1, hv1]; simp⟩
    · by_cases hw : w = []
      · subst hw
        right; left
        simp only [List.nil_append] at hv1
        exact ⟨[], b, by rw [hv2, ← hv1]; simp⟩
      · by_cases hv : v = []
        · left
          subst hv
          rw [List.append_nil] at hv1
          exact ⟨a, [], by rw [hw1, ← hv1]; simp⟩
        · right; right
          refine ⟨w.length, List.length_pos.mpr hw, ?_, ?_, ?_⟩
          · rw [hv1, List.length_append]
            have := List.length_pos.mpr hv
            omega
          · rw [hv1, List.take_left]
            exact ⟨a, hw1.symm⟩
          · rw [hv1, List.drop_left]
            exact ⟨b, hv2.symm⟩
  · right; left
    exact ⟨w, b, by rw [hw2]; simp⟩

theorem not_isInfix_mid {x E : Doc} (hsep : sepOK x E = true)
    {A B : Doc} (hAB : ¬ x <:+: A ++ B) : ¬ x <:+: A ++ (E ++ B) := by
  intro h
  rcases isInfix_append_cases h with h1 | h2 | ⟨k, hk0, hkx, htk, hdk⟩
  · exact hAB (h1.trans (List.prefix_append A B).isInfix)
  · rcases isInfix_append_cases h2 with h3 | h4 | ⟨k, hk0, hkx, htk, hdk⟩
    · rw [← occurs_iff, sepOK_not_occurs hsep] at h3
      cases h3
    · exact hAB (h4.trans (List.suffix_append A B).isInfix)
    · exact (sepOK_entry hsep hk0 hkx).2 htk
  · have hd : x.drop k <+: E := by
      apply prefix_of_append_short hdk
      have := sepOK_length hsep
      simp only [List.length_drop]
      omega
    exact (sepOK_entry hsep hk0 hkx).1 hd

theorem occurs_false_insert {x E : Doc} (hsep : sepOK x E = true)
    {A B : Doc} (h : occurs x (A ++ B) = false) :
    occurs x (A ++ (E ++ B)) = false := by
  rw [occurs_false_iff] at h ⊢
  exact not_isInfix_mid hsep h

theorem replaceAll_insert (old ins : Doc) (hne : old ≠ []) (a b : Doc)
    (hpre : ¬ old <:+: (a ++ old.dropLast)) (hpost : ¬ old <:+: b) :
    replaceAll old (ins ++ old) (a ++ (old ++ b)) = a ++ (ins ++ (old ++ b)) := by
  rw [replaceAll_append old (ins ++ old) hne a b hpre,
    replaceAll_not_occur old (ins ++ old) b hpost]
  simp

namespace AddTestTargetComplete

theorem hasFRHere_intro (m b : Doc) :
    hasFRHere (bFR ++ (nl1 ++ (m ++ (nl1 ++ (eFR ++ b))))) = true := by
  unfold hasFRHere
  rw [Bool.and_eq_true]
  constructor
  · refine List.isPrefixOf_iff_prefix.mpr ?_
    rw [show bFR ++ (nl1 ++ (m ++ (nl1 ++ (eFR ++ b)))) =
      (bFR ++ ['\n']) ++ (m ++ (nl1 ++ (eFR ++ b))) by simp [nl1]]
    exact ⟨_, rfl⟩
  · rw [show bFR ++ (nl1 ++ (m ++ (nl1 ++ (eFR ++ b)))) =
      (bFR ++ ['\n']) ++ (m ++ (nl1 ++ (eFR ++ b))) by simp [nl1]]
    rw [List.drop_left' (by simp [List.length_append])]
    rw [show m ++ (nl1 ++ (eFR ++ b)) = m ++ (('\n' :: eFR) ++ b) by simp [nl1]]
    exact occurs_intro _ m b

theorem hasFRSection_of_here :
    ∀ {s : Doc}, hasFRHere s = true → hasFRSection s = true
  | [], h => by
    unfold hasFRSection
    exact h
  | c :: t, h => by
    unfold hasFRSection
    simp [h]

theorem hasFRSection_cons_of (c : Char) {t : Doc}
    (h : hasFRSection t = true) : hasFRSection (c :: t) = true := by
  unfold hasFRSection
  simp [h]

theorem hasFRSection_intro : ∀ (a m b : Doc),
    hasFRSection (a ++ (bFR ++ (nl1 ++ (m ++ (nl1 ++ (eFR ++ b)))))) = true
  | [], m, b => by
    rw [List.nil_append]
    exact hasFRSection_of_here (hasFRHere_intro m b)
  | c :: a, m, b => by
    rw [List.cons_append]
    exact hasFRSection_cons_of c (hasFRSection_intro a m b)

end AddTestTargetComplete

/- ===== Per-operation lemmas for the complete script ===== -/

namespace AddTestTargetComplete

theorem step1_id {s : Doc} (u1 : Doc) (h : hasFRSection s = false) :
    step1 u1 s = s := by
  simp [step1, h]

theorem step2_id {s : Doc} (u : Doc) (h : occurs fsEnd s = false) :
    step2 u s = s := by
  simp [step2, h]

theorem step3_id {s : Doc} (u : Doc) (h : occurs fwEnd s = false) :
    step3 u s = s := by
  simp [step3, h]

theorem step4_id {s : Doc} (u : Doc) (h : occurs prodKeyLit s = false) :
    step4 u s = s := by
  unfold step4
  rw [show groupedMatch2 prodKeyLit childrenLit closeParen s = none by
    unfold groupedMatch2
    rw [findSub_eq_none _ _ h]]

theorem step5_id {s : Doc} (u : Doc) (h : occurs mainKeyLit s = false) :
    step5 u s = s := by
  unfold step5
  rw [show groupedMatch2 mainKeyLit childrenLit closeParen s = none by
    unfold groupedMatch2
    rw [findSub_eq_none _ _ h]]

theorem step6_id {s : Doc} (u0 u5 u2 u3 u4 u8 u10 u1 : Doc)
    (h : occurs eNT s = false) : step6 u0 u5 u2 u3 u4 u8 u10 u1 s = s := by
  simp [step6, h]

theorem step7_skip {s : Doc} (u9 : Doc) (h : occurs proxyBegin s = true) :
    step7 u9 s = s := by
  simp [step7, h]

theorem step7_noanchor {s : Doc} (u9 : Doc) (h : occurs bFR s = false) :
    step7 u9 s = s := by
  unfold step7
  split
  · exact replaceAll_not_occur _ _ _ ((occurs_false_iff _ _).mp h)
  · rfl

theorem step8_skip {s : Doc} (u8 u9 : Doc) (h : occurs depBegin s = true) :
    step8 u8 u9 s = s := by
  simp [step8, h]

theorem step8_noanchor {s : Doc} (u8 u9 : Doc) (h : occurs fwBegin s = false) :
    step8 u8 u9 s = s := by
  unfold step8
  split
  · exact replaceAll_not_occur _ _ _ ((occurs_false_iff _ _).mp h)
  · rfl

theorem step9_id {s : Doc} (u0 : Doc) (h : occurs targetsLit s = false) :
    step9 u0 s = s := by
  unfold step9
  rw [show groupedMatch1 targetsLit closeParen true s = none by
    unfold groupedMatch1
    rw [findSub_eq_none _ _ h]]

theorem step10_id {s : Doc} (u0 : Doc) (h : occurs attrsLit s = false) :
    step10 u0 s = s := by
  unfold step10
  rw [show groupedMatch1 attrsLit closeBrace false s = none by
    unfold groupedMatch1
    rw [findSub_eq_none _ _ h]]

theorem step11_id {s : Doc} (u : Doc) (h : occurs resEnd s = false) :
    step11 u s = s := by
  simp [step11, h]

theorem step12_id {s : Doc} (u : Doc) (h : occurs srcEnd s = false) :
    step12 u s = s := by
  simp [step12, h]

theorem step13_id {s : Doc} (u6 u7 : Doc) (h : occurs eXC s = false) :
    step13 u6 u7 s = s := by
  simp [step13, h]

theorem step14_id {s : Doc} (u5 u6 u7 : Doc) (h : occurs xclEnd s = false) :
    step14 u5 u6 u7 s = s := by
  simp [step14, h]

theorem run_already {r : Nat → Nat} {content : Doc}
    (h : occurs devcamTests content = true) :
    run r content =
      { written := none, exitCode := 0,
        msgs := ["Test target already exists!"], backup := false } := by
  simp [run, h]

theorem run_write {r : Nat → Nat} {content : Doc}
    (h : occurs devcamTests content = false) :
    run r content =
      { written := some (applyPatch r content), exitCode := 0,
        msgs := ["Successfully added DevCamTests target to Xcode project!"],
        backup := false } := by
  simp [run, h]

end AddTestTargetComplete

namespace AddTestTarget

theorem run_guard_stops {r : Nat → Nat} {content : Doc}
    (h : occurs AddTestTargetComplete.devcamTests content = true) :
    run r content =
      { written := none, exitCode := 0,
        msgs := ["Test target already exists"], backup := false } := by
  simp [run, h]

end AddTestTarget

/- ===== Facts about the key generators ===== -/

theorem uuid4Nibble_lt (r i : Nat) : uuid4Nibble r i < 16 := by
  unfold uuid4Nibble
  split
  · omega
  · split
    · have : (r / 16 ^ (31 - i)) % 4 < 4 := Nat.mod_lt _ (by omega)
      omega
    · exact Nat.mod_lt _ (by omega)

theorem toUpper_hexDigit_ok :
    ∀ n, n < 16 →
      isHexUp (Char.toUpper (hexDigitChar n)) = true ∧
        Char.toUpper (hexDigitChar n) ≠ '-' := by
  decide

theorem length_uuid4hex (r : Nat) : (uuid4hex r).length = 32 := by
  simp [uuid4hex]

theorem mem_uuid4hex {r : Nat} {c : Char}
    (h : c ∈ uuid4hex r) : ∃ n, n < 16 ∧ c = hexDigitChar n := by
  unfold uuid4hex at h
  rw [List.mem_map] at h
  obtain ⟨i, _, rfl⟩ := h
  exact ⟨uuid4Nibble r i, uuid4Nibble_lt r i, rfl⟩

theorem generate_uuid_eq (r : Nat) :
    AddTestTarget.generate_uuid r = AddTestTargetComplete.generate_uuid r := by
  unfold AddTestTarget.generate_uuid AddTestTargetComplete.generate_uuid
  have key : ((uuid4str r).map Char.toUpper).filter (fun c => c ≠ '-') =
      (uuid4hex r).map Char.toUpper := by
    have hp : ∀ (l : Doc), (∀ c ∈ l, c ∈ uuid4hex r) →
        (l.map Char.toUpper).filter (fun c => c ≠ '-') = l.map Char.toUpper := by
      intro l hl
      refine List.filter_eq_self.mpr ?_
      intro a ha
      rw [List.mem_map] at ha
      obtain ⟨d, hd, rfl⟩ := ha
      obtain ⟨n, hn, rfl⟩ := mem_uuid4hex (hl d hd)
      simpa using (toUpper_hexDigit_ok n hn).2
    have hdash : (([ '-' ] : Doc).map Char.toUpper).filter (fun c => c ≠ '-') = [] := by
      decide
    unfold uuid4str
    simp only [List.map_append, List.filter_append, hdash,
      hp _ (fun c hc => List.mem_of_mem_take hc),
      hp _ (fun c hc => List.mem_of_mem_drop (List.mem_of_mem_take hc)),
      hp _ (fun c hc => List.mem_of_mem_drop hc),
      List.append_nil, List.nil_append]
    simp only [← List.map_append]
    congr 1
  rw [key, List.map_take]

/- ===== Claim theorems ===== -/

/-- C1: whenever the input document already contains the target entry name
`DevCamTests`, both scripts stop at the idempotence guard: no write to the
project file happens (so the on-disk document is byte-for-byte unchanged),
no patch operation is applied, the "already exists" message is printed, and
the process exits with code 0. -/
theorem c1_already_applied (r : Nat → Nat) (doc : Doc)
    (h : occurs AddTestTargetComplete.devcamTests doc = true) :
    (AddTestTargetComplete.run r doc).written = none ∧
    (AddTestTargetComplete.run r doc).exitCode = 0 ∧
    (AddTestTargetComplete.run r doc).msgs = ["Test target already exists!"] ∧
    (AddTestTarget.run r doc).written = none ∧
    (AddTestTarget.run r doc).exitCode = 0 ∧
    (AddTestTarget.run r doc).msgs = ["Test target already exists"] ∧
    (AddTestTarget.run r doc).backup = false := by
  rw [AddTestTargetComplete.run_already h, AddTestTarget.run_guard_stops h]
  simp

/-- Witness for C1 at a concrete document containing `DevCamTests`. -/
theorem c1_already_applied_witness :
    occurs AddTestTargetComplete.devcamTests docAlready = true ∧
    ((AddTestTargetComplete.run zeroR docAlready).written = none ∧
     (AddTestTargetComplete.run zeroR docAlready).exitCode = 0 ∧
     (AddTestTargetComplete.run zeroR docAlready).msgs =
       ["Test target already exists!"] ∧
     (AddTestTarget.run zeroR docAlready).written = none ∧
     (AddTestTarget.run zeroR docAlready).exitCode = 0 ∧
     (AddTestTarget.run zeroR docAlready).msgs =
       ["Test target already exists"] ∧
     (AddTestTarget.run zeroR docAlready).backup = false) :=
  ⟨by decide, c1_already_applied zeroR docAlready (by decide)⟩

/-- C8: `add_test_target.py` never writes the project file, on any input
and any entropy: every control path (already-exists guard, missing main
target, missing insertion point, manual-instructions fallback) ends before
any write, so the on-disk `project.pbxproj` stays byte-for-byte identical;
only the sibling `.backup` copy may be produced. -/
theorem c8_first_script_never_writes (r : Nat → Nat) (doc : Doc) :
    (AddTestTarget.run r doc).written = none := by
  unfold AddTestTarget.run
  split
  · rfl
  · split
    · rfl
    · split <;> rfl

/-- C9: every call to `generate_uuid` — in either script — returns a string
of exactly 24 characters, each an uppercase hexadecimal digit, whatever the
128 random bits of the underlying `uuid.uuid4()` draw are. -/
theorem c9_generate_uuid_format (r : Nat) :
    (AddTestTargetComplete.generate_uuid r).length = 24 ∧
    (∀ c ∈ AddTestTargetComplete.generate_uuid r, isHexUp c = true) ∧
    (AddTestTarget.generate_uuid r).length = 24 ∧
    (∀ c ∈ AddTestTarget.generate_uuid r, isHexUp c = true) := by
  have hlen : (AddTestTargetComplete.generate_uuid r).length = 24 := by
    unfold AddTestTargetComplete.generate_uuid
    rw [List.length_map, List.length_take, length_uuid4hex]
    norm_num
  have hmem : ∀ c ∈ AddTestTargetComplete.generate_uuid r, isHexUp c = true := by
    intro c hc
    unfold AddTestTargetComplete.generate_uuid at hc
    rw [List.mem_map] at hc
    obtain ⟨d, hd, rfl⟩ := hc
    obtain ⟨n, hn, rfl⟩ := mem_uuid4hex (List.mem_of_mem_take hd)
    exact (toUpper_hexDigit_ok n hn).1
  refine ⟨hlen, hmem, ?_, ?_⟩
  · rw [generate_uuid_eq]
    exact hlen
  · rw [generate_uuid_eq]
    exact hmem

theorem replaceAll_contains (old new : Doc) (hne : old ≠ []) :
    ∀ s, occurs old s = true → new <:+: replaceAll old new s
  | [], h => by
    rw [occurs_iff, List.infix_nil] at h
    exact absurd h hne
  | c :: t, h => by
    unfold replaceAll
    rw [raGo_zero]
    split
    · exact ⟨[], raGo old new t (old.length - 1), by simp⟩
    · next hc =>
      have hit : old <:+: t := by
        rw [occurs_iff] at h
        rcases List.infix_cons_iff.mp h with hp | hi
        · exact absurd
            (by simp [List.isPrefixOf_iff_prefix.mpr hp, hne] :
              (old.isPrefixOf (c :: t) && !old.isEmpty) = true) hc
        · exact hi
      have ih := replaceAll_contains old new hne t ((occurs_iff _ _).mpr hit)
      unfold replaceAll at ih
      exact List.infix_cons ih

namespace AddTestTargetComplete

/-- C10: whenever `DevCamTests` is absent from the input, the complete
script always rewrites the project file and prints the success message —
regardless of whether any anchor matched — and when none of its fourteen
anchors matches, the bytes written back are exactly the input bytes. -/
theorem c10_unconditional_write :
    (∀ (r : Nat → Nat) (doc : Doc), occurs devcamTests doc = false →
        (run r doc).written = some (applyPatch r doc) ∧
        (run r doc).exitCode = 0 ∧
        (run r doc).msgs =
          ["Successfully added DevCamTests target to Xcode project!"]) ∧
    (∀ (r : Nat → Nat) (doc : Doc), noAnchors doc = true →
        applyPatch r doc = doc) := by
  constructor
  · intro r doc h
    rw [run_write h]
    simp
  · intro r doc h
    unfold noAnchors at h
    simp only [Bool.and_eq_true, Bool.not_eq_true'] at h
    obtain ⟨⟨⟨⟨⟨⟨⟨⟨⟨⟨⟨⟨⟨h1, h2⟩, h3⟩, h4⟩, h5⟩, h6⟩, h7⟩, h8⟩, h9⟩, h10⟩,
      h11⟩, h12⟩, h13⟩, h14⟩ := h
    simp only [applyPatch]
    rw [step1_id _ h1, step2_id _ h2, step3_id _ h3, step4_id _ h4,
      step5_id _ h5, step6_id _ _ _ _ _ _ _ _ h6, step7_noanchor _ h7,
      step8_noanchor _ _ h8, step9_id _ h9, step10_id _ h10, step11_id _ h11,
      step12_id _ h12, step13_id _ _ h13, step14_id _ _ _ h14]

/-- Witness for C10 at a concrete anchor-free document. -/
theorem c10_unconditional_write_witness :
    occurs devcamTests docTiny = false ∧ noAnchors docTiny = true ∧
    (run zeroR docTiny).written = some (applyPatch zeroR docTiny) ∧
    applyPatch zeroR docTiny = docTiny :=
  ⟨by decide, by decide,
    (c10_unconditional_write.1 zeroR docTiny (by decide)).1,
    c10_unconditional_write.2 zeroR docTiny (by decide)⟩

/-- C2 counterexample: a document whose PBXFileReference section exists but
whose PBXNativeTarget anchor (among others) is absent.  The step-6
operation "fails" (its anchor is not found), yet the script still writes
the document back, and the written bytes differ from the input — the
on-disk file is not left untouched. -/
theorem c2_counterexample :
    occurs devcamTests docFROnly = false ∧
    occurs eNT docFROnly = false ∧
    (run zeroR docFROnly).written = some (applyPatch zeroR docFROnly) ∧
    applyPatch zeroR docFROnly ≠ docFROnly := by
  refine ⟨by decide, by decide, ?_, by decide⟩
  rw [run_write (by decide)]

/-- C2 (amended): an operation whose anchor is absent is silently skipped —
it contributes no change to the text and raises no error (shown here for
the PBXNativeTarget insert, step 6) — and whenever the idempotence guard
passes the script writes the patched text back unconditionally, so a
partially-patched document is written whenever some other anchor did
match. -/
theorem c2_amended :
    (∀ (u0 u5 u2 u3 u4 u8 u10 u1 s : Doc), occurs eNT s = false →
        step6 u0 u5 u2 u3 u4 u8 u10 u1 s = s) ∧
    (∀ (r : Nat → Nat) (doc : Doc), occurs devcamTests doc = false →
        (run r doc).written = some (applyPatch r doc)) := by
  constructor
  · intro u0 u5 u2 u3 u4 u8 u10 u1 s h
    exact step6_id _ _ _ _ _ _ _ _ h
  · intro r doc h
    rw [run_write h]

/-- Witness for the amended C2. -/
theorem c2_amended_witness :
    occurs eNT docNoMarks = false ∧
    step6 zkey zkey zkey zkey zkey zkey zkey zkey docNoMarks = docNoMarks ∧
    occurs devcamTests docNoMarks = false ∧
    (run zeroR docNoMarks).written = some (applyPatch zeroR docNoMarks) :=
  ⟨by decide,
    c2_amended.1 zkey zkey zkey zkey zkey zkey zkey zkey docNoMarks (by decide),
    by decide, c2_amended.2 zeroR docNoMarks (by decide)⟩

/-- C6 counterexample: on a document without `DevCamTests` in which no
anchor is found (a structural failure for every operation), the complete
script exits with code 0 and prints the success message — not exit code
1. -/
theorem c6_counterexample :
    occurs devcamTests docNoMarks = false ∧
    occurs eNT docNoMarks = false ∧
    (run zeroR docNoMarks).exitCode = 0 ∧
    (run zeroR docNoMarks).msgs =
      ["Successfully added DevCamTests target to Xcode project!"] := by
  refine ⟨by decide, by decide, ?_, ?_⟩ <;> rw [run_write (by decide)]

/-- C6 (amended): the complete script always exits 0 (anchor misses are
skipped silently, they never cause exit code 1); `add_test_target.py` exits
0 on the already-applied guard and on the manual-instructions fallback, and
exits 1 exactly when the main-target pattern or the insertion point is not
found, printing a message in every case. -/
theorem c6_amended :
    (∀ (r : Nat → Nat) (doc : Doc), (run r doc).exitCode = 0) ∧
    (∀ (r : Nat → Nat) (doc : Doc), occurs devcamTests doc = true →
        (AddTestTarget.run r doc).exitCode = 0) ∧
    (∀ (r : Nat → Nat) (doc : Doc), occurs devcamTests doc = false →
        AddTestTarget.findTargetMatch doc = none →
        (AddTestTarget.run r doc).exitCode = 1 ∧
        (AddTestTarget.run r doc).msgs =
          ["Adding test target to Xcode project...",
           "Could not find main target"]) ∧
    (∀ (r : Nat → Nat) (doc u : Doc), occurs devcamTests doc = false →
        AddTestTarget.findTargetMatch doc = some u →
        occurs (u ++ " /* DevCam */,".data) doc = false →
        (AddTestTarget.run r doc).exitCode = 1) ∧
    (∀ (r : Nat → Nat) (doc u : Doc), occurs devcamTests doc = false →
        AddTestTarget.findTargetMatch doc = some u →
        occurs (u ++ " /* DevCam */,".data) doc = true →
        (AddTestTarget.run r doc).exitCode = 0) := by
  refine ⟨?_, ?_, ?_, ?_, ?_⟩
  · intro r doc
    unfold run
    split <;> rfl
  · intro r doc h
    simp [AddTestTarget.run, h]
  · intro r doc h hm
    simp [AddTestTarget.run, h, hm]
  · intro r doc u h hm hocc
    simp [AddTestTarget.run, h, hm, hocc]
  · intro r doc u h hm hocc
    simp [AddTestTarget.run, h, hm, hocc]

/-- Witness for the amended C6. -/
theorem c6_amended_witness :
    occurs devcamTests docNoMarks = false ∧
    AddTestTarget.findTargetMatch docNoMarks = none ∧
    ((AddTestTarget.run zeroR docNoMarks).exitCode = 1 ∧
      (AddTestTarget.run zeroR docNoMarks).msgs =
        ["Adding test target to Xcode project...",
         "Could not find main target"]) :=
  ⟨by decide, by decide,
    c6_amended.2.2.1 zeroR docNoMarks (by decide) (by decide)⟩

/-- C7 counterexample: on a document in which the PBXContainerItemProxy
section does not exist and the insertion anchor (the PBXFileReference begin
marker) is also absent, the script creates no section at all: the document
is written back unchanged and still has no PBXContainerItemProxy section —
refuting "inserts a brand-new begin/end block if and only if the named
section does not already exist". -/
theorem c7_counterexample :
    occurs proxyBegin docHello = false ∧
    occurs devcamTests docHello = false ∧
    (run zeroR docHello).written = some docHello ∧
    occurs proxyBegin (applyPatch zeroR docHello) = false := by
  refine ⟨by decide, by decide, ?_, by decide⟩
  rw [run_write (by decide)]
  decide

/-- C7 (amended): the section-creating steps are no-ops when the section
already exists, and insert the new begin/end block only when the section is
absent *and* the step's insertion anchor is present (the PBXFileReference
begin marker for PBXContainerItemProxy, the PBXFrameworksBuildPhase begin
marker for PBXTargetDependency); when both the section and the anchor are
absent nothing is inserted. -/
theorem c7_amended :
    (∀ (u9 s : Doc), occurs proxyBegin s = true → step7 u9 s = s) ∧
    (∀ (u9 s : Doc), occurs proxyBegin s = false → occurs bFR s = false →
        step7 u9 s = s) ∧
    (∀ (u9 s : Doc), occurs proxyBegin s = false → occurs bFR s = true →
        occurs proxyBegin (step7 u9 s) = true) ∧
    (∀ (u8 u9 s : Doc), occurs depBegin s = true → step8 u8 u9 s = s) ∧
    (∀ (u8 u9 s : Doc), occurs depBegin s = false → occurs fwBegin s = false →
        step8 u8 u9 s = s) ∧
    (∀ (u8 u9 s : Doc), occurs depBegin s = false → occurs fwBegin s = true →
        occurs depBegin (step8 u8 u9 s) = true) := by
  refine ⟨fun u9 s h => step7_skip u9 h,
          fun u9 s h hb => step7_noanchor u9 hb, ?_,
          fun u8 u9 s h => step8_skip u8 u9 h,
          fun u8 u9 s h hb => step8_noanchor u8 u9 hb, ?_⟩
  · intro u9 s h hb
    unfold step7
    rw [if_pos (by simp [h])]
    have hall := replaceAll_contains bFR (containerProxyBlock u9 ++ bFR)
      (by decide) s hb
    have hpre : proxyBegin <+: containerProxyBlock u9 ++ bFR := by
      unfold containerProxyBlock
      have h0 : proxyBegin <+:
          ("/* Begin PBXContainerItemProxy section */\n\t\t".data : Doc) := by
        decide
      exact ((h0.trans (List.prefix_append _ _)).trans
        (List.prefix_append _ _)).trans (List.prefix_append _ _)
    exact occurs_of_isInfix ((occurs_iff _ _).mpr hpre.isInfix) hall
  · intro u8 u9 s h hb
    unfold step8
    rw [if_pos (by simp [h])]
    have hall := replaceAll_contains fwBegin (targetDepBlock u8 u9 ++ fwBegin)
      (by decide) s hb
    have hpre : depBegin <+: targetDepBlock u8 u9 ++ fwBegin := by
      unfold targetDepBlock
      have h0 : depBegin <+:
          ("/* Begin PBXTargetDependency section */\n\t\t".data : Doc) := by
        decide
      exact (((h0.trans (List.prefix_append _ _)).trans
        (List.prefix_append _ _)).trans (List.prefix_append _ _)).trans
        (List.prefix_append _ _)
    exact occurs_of_isInfix ((occurs_iff _ _).mpr hpre.isInfix) hall

/-- Witness for the amended C7. -/
theorem c7_amended_witness :
    occurs proxyBegin docFROnly = false ∧ occurs bFR docFROnly = true ∧
    occurs proxyBegin (step7 zkey docFROnly) = true :=
  ⟨by decide, by decide, c7_amended.2.2.1 zkey docFROnly (by decide) (by decide)⟩

/-- C4 counterexample: a document made of two regions that each match the
`targets` list anchor.  The anchor thus matches more than one region, yet
the operation does not fail with any error — the run exits 0 with the
success message — and it does mutate the document (the first region is
rewritten). -/
theorem c4_counterexample :
    (groupedMatch1 targetsLit closeParen true docTargetsA).isSome = true ∧
    (groupedMatch1 targetsLit closeParen true docTargetsB).isSome = true ∧
    occurs devcamTests (docTargetsA ++ docTargetsB) = false ∧
    applyPatch zeroR (docTargetsA ++ docTargetsB) ≠ docTargetsA ++ docTargetsB ∧
    (run zeroR (docTargetsA ++ docTargetsB)).exitCode = 0 ∧
    (run zeroR (docTargetsA ++ docTargetsB)).msgs =
      ["Successfully added DevCamTests target to Xcode project!"] := by
  refine ⟨by decide, by decide, by decide, by decide, ?_, ?_⟩ <;>
    rw [run_write (by decide)]

/-- C4 (amended): the list-append operations never fail: when the anchor
pattern matches no region the operation is silently skipped with no
mutation (shown for the `targets`-list append, step 9, and the
Products-group append, step 4), and the run always exits 0; when the
anchor matches one or more regions, the leftmost match is rewritten. -/
theorem c4_amended :
    (∀ (u0 s : Doc), occurs targetsLit s = false → step9 u0 s = s) ∧
    (∀ (u1 s : Doc), occurs prodKeyLit s = false → step4 u1 s = s) ∧
    (∀ (r : Nat → Nat) (doc : Doc), (run r doc).exitCode = 0) := by
  refine ⟨fun u0 s h => step9_id u0 h, fun u1 s h => step4_id u1 h, ?_⟩
  intro r doc
  unfold run
  split <;> rfl

/-- Witness for the amended C4. -/
theorem c4_amended_witness :
    occurs targetsLit docHello = false ∧ step9 zkey docHello = docHello ∧
    (run zeroR docHello).exitCode = 0 :=
  ⟨by decide, c4_amended.1 zkey docHello (by decide),
    c4_amended.2.2 zeroR docHello⟩

/-- C5 counterexample: the key generator is pure chance — with the
(perfectly possible) entropy stream whose 128-bit draws are all zero, two
successive `generate_uuid` calls return the same key, that key moreover
already occurs verbatim in the input document, and the script still
proceeds to patch and write, with no collision check anywhere. -/
theorem c5_counterexample :
    generate_uuid (zeroR 0) = generate_uuid (zeroR 1) ∧
    occurs (generate_uuid (zeroR 0)) docWithKey = true ∧
    occurs devcamTests docWithKey = false ∧
    (run zeroR docWithKey).written = some (applyPatch zeroR docWithKey) := by
  refine ⟨rfl, by decide, by decide, ?_⟩
  rw [run_write (by decide)]

theorem map_toUpper_hexDigit_inj :
    ∀ (a b : List Nat), (∀ m ∈ a, m < 16) → (∀ m ∈ b, m < 16) →
      a.map (fun n => Char.toUpper (hexDigitChar n)) =
        b.map (fun n => Char.toUpper (hexDigitChar n)) → a = b
  | [], [], _, _, _ => rfl
  | [], _ :: _, _, _, h => by simp at h
  | _ :: _, [], _, _, h => by simp at h
  | a0 :: a, b0 :: b, ha, hb, h => by
    simp only [List.map_cons, List.cons.injEq] at h
    have hpoint : ∀ m, m < 16 → ∀ n, n < 16 →
        Char.toUpper (hexDigitChar m) = Char.toUpper (hexDigitChar n) →
        m = n := by decide
    have h0 : a0 = b0 :=
      hpoint a0 (ha a0 (by simp)) b0 (hb b0 (by simp)) h.1
    rw [h0, map_toUpper_hexDigit_inj a b (fun m hm => ha m (by simp [hm]))
      (fun m hm => hb m (by simp [hm])) h.2]

theorem generate_uuid_as_nibbles (r : Nat) :
    generate_uuid r =
      ((List.range 24).map (uuid4Nibble r)).map
        (fun n => Char.toUpper (hexDigitChar n)) := by
  unfold generate_uuid uuid4hex
  rw [← List.map_take,
    show (List.range 32).take 24 = List.range 24 by decide]
  simp [List.map_map, Function.comp]

/-- C5 (amended): the script performs no key-collision check of any kind —
key distinctness is only as good as the randomness — but the retained
24-hex-digit portion of the draw determines the key injectively: whenever
two 128-bit draws differ in their first 24 (version/variant-adjusted)
nibbles, the generated keys differ. -/
theorem c5_amended (r s : Nat)
    (h : (List.range 24).map (uuid4Nibble r) ≠
      (List.range 24).map (uuid4Nibble s)) :
    generate_uuid r ≠ generate_uuid s := by
  intro he
  apply h
  rw [generate_uuid_as_nibbles, generate_uuid_as_nibbles] at he
  refine map_toUpper_hexDigit_inj _ _ ?_ ?_ he
  · intro m hm
    rw [List.mem_map] at hm
    obtain ⟨i, _, rfl⟩ := hm
    exact uuid4Nibble_lt r i
  · intro m hm
    rw [List.mem_map] at hm
    obtain ⟨i, _, rfl⟩ := hm
    exact uuid4Nibble_lt s i

/-- Witness for the amended C5. -/
theorem c5_amended_witness :
    (List.range 24).map (uuid4Nibble 0) ≠
      (List.range 24).map (uuid4Nibble (16 ^ 31)) ∧
    generate_uuid 0 ≠ generate_uuid (16 ^ 31) :=
  ⟨by decide, c5_amended 0 (16 ^ 31) (by decide)⟩

end AddTestTargetComplete

namespace AddTestTargetComplete

/-- C3 counterexample: `docC3` satisfies all the claim's hypotheses — the
PBXFileReference, PBXNativeTarget and XCBuildConfiguration sections are
present and non-empty and `DevCamTests` is absent — and it also contains,
as real project files do, a project-object entry with a `targets` list
(`entryC3`).  After running the full operation sequence this pre-existing
entry is no longer present in the document (step 9 splices a new item into
the middle of it), so it is not the case that every pre-existing entry is
unchanged. -/
theorem c3_counterexample :
    hasFRSection docC3 = true ∧
    occurs bNT docC3 = true ∧ occurs eNT docC3 = true ∧
    occurs bXC docC3 = true ∧ occurs eXC docC3 = true ∧
    occurs devcamTests docC3 = false ∧
    occurs entryC3 docC3 = true ∧
    occurs entryC3 (applyPatch zeroR docC3) = false := by
  exact ⟨by decide, by decide, by decide, by decide, by decide, by decide,
    by decide, by decide⟩

end AddTestTargetComplete

namespace AddTestTargetComplete

/- Each operation only ever inserts text: its input is a sublist of its
output. -/

theorem step1_sub (u s : Doc) : List.Sublist s (step1 u s) := by
  unfold step1
  split
  · exact replaceAll_sublist _ _ (List.sublist_append_right _ _) s
  · exact List.Sublist.refl s

theorem step2_sub (u s : Doc) : List.Sublist s (step2 u s) := by
  unfold step2
  split
  · exact replaceAll_sublist _ _ (List.sublist_append_right _ _) s
  · exact List.Sublist.refl s

theorem step3_sub (u s : Doc) : List.Sublist s (step3 u s) := by
  unfold step3
  split
  · exact replaceAll_sublist _ _ (List.sublist_append_right _ _) s
  · exact List.Sublist.refl s

theorem step4_sub (u s : Doc) : List.Sublist s (step4 u s) := by
  unfold step4
  split
  · exact List.Sublist.refl s
  · exact replaceAll_sublist _ _
      (List.Sublist.append
        (List.Sublist.append (List.Sublist.refl _)
          (List.sublist_append_left _ _))
        (List.Sublist.refl _)) s

theorem step5_sub (u s : Doc) : List.Sublist s (step5 u s) := by
  unfold step5
  split
  · exact List.Sublist.refl s
  · exact replaceAll_sublist _ _
      (List.Sublist.append
        (List.Sublist.append (List.Sublist.refl _)
          (List.sublist_append_left _ _))
        (List.Sublist.refl _)) s

theorem step6_sub (u0 u5 u2 u3 u4 u8 u10 u1 s : Doc) :
    List.Sublist s (step6 u0 u5 u2 u3 u4 u8 u10 u1 s) := by
  unfold step6
  split
  · exact replaceAll_sublist _ _ (List.sublist_append_right _ _) s
  · exact List.Sublist.refl s

theorem step7_sub (u9 s : Doc) : List.Sublist s (step7 u9 s) := by
  unfold step7
  split
  · exact replaceAll_sublist _ _ (List.sublist_append_right _ _) s
  · exact List.Sublist.refl s

theorem step8_sub (u8 u9 s : Doc) : List.Sublist s (step8 u8 u9 s) := by
  unfold step8
  split
  · exact replaceAll_sublist _ _ (List.sublist_append_right _ _) s
  · exact List.Sublist.refl s

theorem step9_sub (u0 s : Doc) : List.Sublist s (step9 u0 s) := by
  unfold step9
  split
  · exact List.Sublist.refl s
  · exact replaceAll_sublist _ _
      (List.Sublist.append
        (List.Sublist.append (List.Sublist.refl _)
          (List.sublist_append_left _ _))
        (List.Sublist.refl _)) s

theorem step10_sub (u0 s : Doc) : List.Sublist s (step10 u0 s) := by
  unfold step10
  split
  · exact List.Sublist.refl s
  · exact replaceAll_sublist _ _
      (List.Sublist.append
        (List.Sublist.append (List.Sublist.refl _)
          (List.sublist_append_left _ _))
        (List.Sublist.refl _)) s

theorem step11_sub (u s : Doc) : List.Sublist s (step11 u s) := by
  unfold step11
  split
  · exact replaceAll_sublist _ _ (List.sublist_append_right _ _) s
  · exact List.Sublist.refl s

theorem step12_sub (u s : Doc) : List.Sublist s (step12 u s) := by
  unfold step12
  split
  · exact replaceAll_sublist _ _ (List.sublist_append_right _ _) s
  · exact List.Sublist.refl s

theorem step13_sub (u6 u7 s : Doc) : List.Sublist s (step13 u6 u7 s) := by
  unfold step13
  split
  · exact replaceAll_sublist _ _ (List.sublist_append_right _ _) s
  · exact List.Sublist.refl s

theorem step14_sub (u5 u6 u7 s : Doc) : List.Sublist s (step14 u5 u6 u7 s) := by
  unfold step14
  split
  · exact replaceAll_sublist _ _ (List.sublist_append_right _ _) s
  · exact List.Sublist.refl s

theorem applyPatch_sub (r : Nat → Nat) (doc : Doc) :
    List.Sublist doc (applyPatch r doc) := by
  simp only [applyPatch]
  exact (((((((((((((step1_sub _ _).trans (step2_sub _ _)).trans
    (step3_sub _ _)).trans (step4_sub _ _)).trans (step5_sub _ _)).trans
    (step6_sub _ _ _ _ _ _ _ _ _)).trans (step7_sub _ _)).trans
    (step8_sub _ _ _)).trans (step9_sub _ _)).trans (step10_sub _ _)).trans
    (step11_sub _ _)).trans (step12_sub _ _)).trans
    (step13_sub _ _ _)).trans (step14_sub _ _ _ _)

end AddTestTargetComplete

theorem occurs_append3 (x A B : Doc) (h : occurs x A = true) :
    occurs x (A ++ B) = true :=
  occurs_of_isInfix h ⟨[], B, by simp⟩

theorem occurs_append_right (x A B : Doc) (h : occurs x B = true) :
    occurs x (A ++ B) = true :=
  occurs_of_isInfix h ⟨A, [], by simp⟩

namespace AddTestTargetComplete

/-- C3 (amended): (a) in full generality — for every document and every
entropy stream — the complete script only ever inserts text: the input
document is a sublist of the patched output, so nothing pre-existing is
deleted or reordered.  (b) With the key-generation entropy held fixed (the
zero stream; any fixed stream behaves identically), for every document of
the stated shape — PBXFileReference, PBXNativeTarget and XCBuildConfiguration
sections present with unique markers and non-empty bodies, `DevCamTests`
absent, PBXContainerItemProxy and PBXTargetDependency sections already
present, and none of the list-append anchors (`targets` list,
`TargetAttributes`, Products-group children, main-group children) nor the
other build-phase anchors occurring — the run inserts the new
file-reference entry, the new native-target entry and the new Debug+Release
build-configuration block each exactly at the end of its respective
section, leaving every other character of the document in place: the output
is exactly `outShape`. -/
theorem c3_amended :
    (∀ (r : Nat → Nat) (doc : Doc), List.Sublist doc (applyPatch r doc)) ∧
    (∀ (p0 g p1 n p2 x p3 : Doc),
      n ≠ [] → x ≠ [] →
      occurs devcamTests (docShape p0 g p1 n p2 x p3) = false →
      occurs proxyBegin p0 = true →
      occurs depBegin p2 = true →
      occurs fsEnd (docShape p0 g p1 n p2 x p3) = false →
      occurs fwEnd (docShape p0 g p1 n p2 x p3) = false →
      occurs prodKeyLit (docShape p0 g p1 n p2 x p3) = false →
      occurs mainKeyLit (docShape p0 g p1 n p2 x p3) = false →
      occurs targetsLit (docShape p0 g p1 n p2 x p3) = false →
      occurs attrsLit (docShape p0 g p1 n p2 x p3) = false →
      occurs resEnd (docShape p0 g p1 n p2 x p3) = false →
      occurs srcEnd (docShape p0 g p1 n p2 x p3) = false →
      occurs xclEnd (docShape p0 g p1 n p2 x p3) = false →
      occurs eFR (preFR p0 g ++ eFR.dropLast) = false →
      occurs eFR (postFR p1 n p2 x p3) = false →
      occurs eNT ((preFR p0 g ++ (eFR ++ (p1 ++ (bNT ++ n)))) ++
        eNT.dropLast) = false →
      occurs eNT (postNT p2 x p3) = false →
      occurs eXC ((preFR p0 g ++ (eFR ++ (p1 ++ (bNT ++ (n ++ (eNT ++
        (p2 ++ (bXC ++ x)))))))) ++ eXC.dropLast) = false →
      occurs eXC p3 = false →
      applyPatch zeroR (docShape p0 g p1 n p2 x p3) =
        outShape p0 g p1 n p2 x p3) := by
  refine ⟨applyPatch_sub, ?_⟩
  intro p0 g p1 n p2 x p3 _hn _hx hdev hpb hdb hfs hfw hprod hmain htg
    hattr hres hsrc hxcl heFR1 heFR2 heNT1 heNT2 heXC1 heXC2
  have hu : ∀ i : Nat, generate_uuid (zeroR i) = zkey := fun i => rfl
  simp only [applyPatch, hu]
  -- step 1 fires: the new file reference goes in just before the unique
  -- PBXFileReference end marker
  have hsh1 : docShape p0 g p1 n p2 x p3 =
      preFR p0 g ++ (eFR ++ postFR p1 n p2 x p3) := by
    simp [docShape, preFR, List.append_assoc]
  have hg1 : hasFRSection (docShape p0 g p1 n p2 x p3) = true := by
    unfold docShape
    exact hasFRSection_intro p0 g (postFR p1 n p2 x p3)
  have e1 : step1 zkey (docShape p0 g p1 n p2 x p3) =
      preFR p0 g ++ (newFileRef zkey ++ (eFR ++ postFR p1 n p2 x p3)) := by
    unfold step1
    rw [hg1, if_pos rfl, hsh1]
    exact replaceAll_insert eFR (newFileRef zkey) (by decide) _ _
      ((occurs_false_iff _ _).mp heFR1) ((occurs_false_iff _ _).mp heFR2)
  rw [e1]
  -- anchor absence transfers across the first insertion
  have htr1 : ∀ lit : Doc, sepOK lit (newFileRef zkey) = true →
      occurs lit (docShape p0 g p1 n p2 x p3) = false →
      occurs lit (preFR p0 g ++ (newFileRef zkey ++
        (eFR ++ postFR p1 n p2 x p3))) = false := by
    intro lit h1 h
    refine occurs_false_insert h1 ?_
    rw [← hsh1]
    exact h
  -- steps 2-5 are skipped
  rw [step2_id _ (htr1 fsEnd (by decide) hfs)]
  rw [step3_id _ (htr1 fwEnd (by decide) hfw)]
  rw [step4_id _ (htr1 prodKeyLit (by decide) hprod)]
  rw [step5_id _ (htr1 mainKeyLit (by decide) hmain)]
  -- step 6 fires: the new native target goes in just before the unique
  -- PBXNativeTarget end marker
  have hsh2 : preFR p0 g ++ (newFileRef zkey ++ (eFR ++ postFR p1 n p2 x p3)) =
      (preFR p0 g ++ (newFileRef zkey ++ (eFR ++ (p1 ++ (bNT ++ n))))) ++
        (eNT ++ postNT p2 x p3) := by
    simp [postFR, postNT, List.append_assoc]
  have hg6 : occurs eNT (preFR p0 g ++ (newFileRef zkey ++
      (eFR ++ postFR p1 n p2 x p3))) = true := by
    rw [hsh2]
    exact occurs_intro eNT _ _
  have hpre6 : ¬ eNT <:+: ((preFR p0 g ++ (newFileRef zkey ++
      (eFR ++ (p1 ++ (bNT ++ n))))) ++ eNT.dropLast) := by
    have hre : (preFR p0 g ++ (newFileRef zkey ++
        (eFR ++ (p1 ++ (bNT ++ n))))) ++ eNT.dropLast =
        preFR p0 g ++ (newFileRef zkey ++
          (eFR ++ (p1 ++ (bNT ++ (n ++ eNT.dropLast))))) := by
      simp [List.append_assoc]
    rw [hre]
    refine not_isInfix_mid (by decide) ?_
    have hre2 : preFR p0 g ++ (eFR ++ (p1 ++ (bNT ++ (n ++ eNT.dropLast)))) =
        (preFR p0 g ++ (eFR ++ (p1 ++ (bNT ++ n)))) ++ eNT.dropLast := by
      simp [List.append_assoc]
    rw [hre2]
    exact (occurs_false_iff _ _).mp heNT1
  have e6 : step6 zkey zkey zkey zkey zkey zkey zkey zkey
      (preFR p0 g ++ (newFileRef zkey ++ (eFR ++ postFR p1 n p2 x p3))) =
      (preFR p0 g ++ (newFileRef zkey ++ (eFR ++ (p1 ++ (bNT ++ n))))) ++
        (newTarget zkey zkey zkey zkey zkey zkey zkey zkey ++
          (eNT ++ postNT p2 x p3)) := by
    unfold step6
    rw [hg6, if_pos rfl, hsh2]
    exact replaceAll_insert eNT
      (newTarget zkey zkey zkey zkey zkey zkey zkey zkey) (by decide) _ _
      hpre6 ((occurs_false_iff _ _).mp heNT2)
  rw [e6]
  -- steps 7 and 8 are skipped: both sections already exist
  have h7 : occurs proxyBegin
      ((preFR p0 g ++ (newFileRef zkey ++ (eFR ++ (p1 ++ (bNT ++ n))))) ++
        (newTarget zkey zkey zkey zkey zkey zkey zkey zkey ++
          (eNT ++ postNT p2 x p3))) = true := by
    refine occurs_append3 _ _ _ (occurs_append3 _ _ _ ?_)
    unfold preFR
    exact occurs_append3 _ _ _ hpb
  rw [step7_skip _ h7]
  have h8 : occurs depBegin
      ((preFR p0 g ++ (newFileRef zkey ++ (eFR ++ (p1 ++ (bNT ++ n))))) ++
        (newTarget zkey zkey zkey zkey zkey zkey zkey zkey ++
          (eNT ++ postNT p2 x p3))) = true := by
    refine occurs_append_right _ _ _ (occurs_append_right _ _ _
      (occurs_append_right _ _ _ ?_))
    unfold postNT
    exact occurs_append3 _ _ _ hdb
  rw [step8_skip _ _ h8]
  -- anchor absence transfers across both insertions
  have htr2 : ∀ lit : Doc, sepOK lit (newFileRef zkey) = true →
      sepOK lit (newTarget zkey zkey zkey zkey zkey zkey zkey zkey) = true →
      occurs lit (docShape p0 g p1 n p2 x p3) = false →
      occurs lit
        ((preFR p0 g ++ (newFileRef zkey ++ (eFR ++ (p1 ++ (bNT ++ n))))) ++
          (newTarget zkey zkey zkey zkey zkey zkey zkey zkey ++
            (eNT ++ postNT p2 x p3))) = false := by
    intro lit h1 h2 h
    refine occurs_false_insert h2 ?_
    have hre : (preFR p0 g ++ (newFileRef zkey ++
        (eFR ++ (p1 ++ (bNT ++ n))))) ++ (eNT ++ postNT p2 x p3) =
        preFR p0 g ++ (newFileRef zkey ++
          (eFR ++ (p1 ++ (bNT ++ (n ++ (eNT ++ postNT p2 x p3)))))) := by
      simp [List.append_assoc]
    rw [hre]
    refine occurs_false_insert h1 ?_
    have hre2 : preFR p0 g ++
        (eFR ++ (p1 ++ (bNT ++ (n ++ (eNT ++ postNT p2 x p3))))) =
        docShape p0 g p1 n p2 x p3 := by
      simp [docShape, preFR, postFR, postNT, List.append_assoc]
    rw [hre2]
    exact h
  -- steps 9-12 are skipped
  rw [step9_id _ (htr2 targetsLit (by decide) (by decide) htg)]
  rw [step10_id _ (htr2 attrsLit (by decide) (by decide) hattr)]
  rw [step11_id _ (htr2 resEnd (by decide) (by decide) hres)]
  rw [step12_id _ (htr2 srcEnd (by decide) (by decide) hsrc)]
  -- step 13 fires: the Debug and Release configurations go in just before
  -- the unique XCBuildConfiguration end marker
  have hsh3 : (preFR p0 g ++ (newFileRef zkey ++ (eFR ++ (p1 ++ (bNT ++ n))))) ++
      (newTarget zkey zkey zkey zkey zkey zkey zkey zkey ++
        (eNT ++ postNT p2 x p3)) =
      ((preFR p0 g ++ (newFileRef zkey ++ (eFR ++ (p1 ++ (bNT ++ n))))) ++
        (newTarget zkey zkey zkey zkey zkey zkey zkey zkey ++
          (eNT ++ (p2 ++ (bXC ++ x))))) ++ (eXC ++ p3) := by
    simp [postNT, List.append_assoc]
  have hg13 : occurs eXC
      ((preFR p0 g ++ (newFileRef zkey ++ (eFR ++ (p1 ++ (bNT ++ n))))) ++
        (newTarget zkey zkey zkey zkey zkey zkey zkey zkey ++
          (eNT ++ postNT p2 x p3))) = true := by
    rw [hsh3]
    exact occurs_intro eXC _ _
  have hpre13 : ¬ eXC <:+:
      (((preFR p0 g ++ (newFileRef zkey ++ (eFR ++ (p1 ++ (bNT ++ n))))) ++
        (newTarget zkey zkey zkey zkey zkey zkey zkey zkey ++
          (eNT ++ (p2 ++ (bXC ++ x))))) ++ eXC.dropLast) := by
    have hre : ((preFR p0 g ++ (newFileRef zkey ++ (eFR ++ (p1 ++ (bNT ++ n))))) ++
        (newTarget zkey zkey zkey zkey zkey zkey zkey zkey ++
          (eNT ++ (p2 ++ (bXC ++ x))))) ++ eXC.dropLast =
        (preFR p0 g ++ (newFileRef zkey ++ (eFR ++ (p1 ++ (bNT ++ n))))) ++
          (newTarget zkey zkey zkey zkey zkey zkey zkey zkey ++
            (eNT ++ (p2 ++ (bXC ++ (x ++ eXC.dropLast))))) := by
      simp [List.append_assoc]
    rw [hre]
    refine not_isInfix_mid (by decide) ?_
    have hre2 : (preFR p0 g ++ (newFileRef zkey ++ (eFR ++ (p1 ++ (bNT ++ n))))) ++
        (eNT ++ (p2 ++ (bXC ++ (x ++ eXC.dropLast)))) =
        preFR p0 g ++ (newFileRef zkey ++ (eFR ++ (p1 ++ (bNT ++
          (n ++ (eNT ++ (p2 ++ (bXC ++ (x ++ eXC.dropLast))))))))) := by
      simp [List.append_assoc]
    rw [hre2]
    refine not_isInfix_mid (by decide) ?_
    have hre3 : preFR p0 g ++ (eFR ++ (p1 ++ (bNT ++
        (n ++ (eNT ++ (p2 ++ (bXC ++ (x ++ eXC.dropLast)))))))) =
        (preFR p0 g ++ (eFR ++ (p1 ++ (bNT ++ (n ++ (eNT ++
          (p2 ++ (bXC ++ x)))))))) ++ eXC.dropLast := by
      simp [List.append_assoc]
    rw [hre3]
    exact (occurs_false_iff _ _).mp heXC1
  have e13 : step13 zkey zkey
      ((preFR p0 g ++ (newFileRef zkey ++ (eFR ++ (p1 ++ (bNT ++ n))))) ++
        (newTarget zkey zkey zkey zkey zkey zkey zkey zkey ++
          (eNT ++ postNT p2 x p3))) =
      ((preFR p0 g ++ (newFileRef zkey ++ (eFR ++ (p1 ++ (bNT ++ n))))) ++
        (newTarget zkey zkey zkey zkey zkey zkey zkey zkey ++
          (eNT ++ (p2 ++ (bXC ++ x))))) ++
        (newConfigs zkey zkey ++ (eXC ++ p3)) := by
    unfold step13
    rw [hg13, if_pos rfl, hsh3]
    exact replaceAll_insert eXC (newConfigs zkey zkey) (by decide) _ _
      hpre13 ((occurs_false_iff _ _).mp heXC2)
  rw [e13]
  -- step 14 is skipped
  have h14 : occurs xclEnd
      (((preFR p0 g ++ (newFileRef zkey ++ (eFR ++ (p1 ++ (bNT ++ n))))) ++
        (newTarget zkey zkey zkey zkey zkey zkey zkey zkey ++
          (eNT ++ (p2 ++ (bXC ++ x))))) ++
        (newConfigs zkey zkey ++ (eXC ++ p3))) = false := by
    refine occurs_false_insert (by decide : sepOK xclEnd
      (newConfigs zkey zkey) = true) ?_
    have hre : ((preFR p0 g ++ (newFileRef zkey ++ (eFR ++ (p1 ++ (bNT ++ n))))) ++
        (newTarget zkey zkey zkey zkey zkey zkey zkey zkey ++
          (eNT ++ (p2 ++ (bXC ++ x))))) ++ (eXC ++ p3) =
        (preFR p0 g ++ (newFileRef zkey ++ (eFR ++ (p1 ++ (bNT ++ n))))) ++
          (newTarget zkey zkey zkey zkey zkey zkey zkey zkey ++
            (eNT ++ postNT p2 x p3)) := by
      simp [postNT, List.append_assoc]
    rw [hre]
    exact htr2 xclEnd (by decide) (by decide) hxcl
  rw [step14_id _ _ _ h14]
  -- and the result is exactly the expected document
  simp [outShape, preFR, List.append_assoc]

/-- Witness for the amended C3 at a concrete document of the stated shape. -/
theorem c3_amended_witness :
    applyPatch zeroR (docShape p0w gw p1w nw p2w xw p3w) =
      outShape p0w gw p1w nw p2w xw p3w :=
  c3_amended.2 p0w gw p1w nw p2w xw p3w (by decide) (by decide) (by decide)
    (by decide) (by decide) (by decide) (by decide) (by decide) (by decide)
    (by decide) (by decide) (by decide) (by decide) (by decide) (by decide)
    (by decide) (by decide) (by decide) (by decide) (by decide)

end AddTestTargetComplete
